import Mathlib

/-!
# Configuration resolution of the `gotemp` service template

Shallow embedding of `template/{{ProjectName}}/internal/config.go`.

The file is a template: `{{ProjectName}}` and the three blocks
`{{ if Postgres }}`, `{{ if Kafka }}`, `{{ if Grpc }}` are resolved when a
service is generated.  The embedding takes these as a parameter record
`Params`, so that every statement is about all generated programs at once.

`LoadConf` talks to the file system, the process environment and the `viper`
configuration library.  The file system and the environment are fields of
`World`, and so are the two library functions whose results depend on tables or
versions outside this repository (`strings.ToUpper`, the string case of
`cast.ToInt`): the general statements hold for every such function.  The part
of `viper` that `LoadConf` drives (package-level instance, `ReadConfig`,
`ReadInConfig`, `GetString`, `GetInt`) is embedded as explicit state passing
over `Viper`; Go's `int` is 64 bits wide.
-/

namespace Gotemp

/-! ## Template parameters -/

/-- Generation-time parameters of the template: the project name substituted
for `{{ProjectName}}` and the three capability flags. -/
structure Params where
  ProjectName : String
  Postgres : Bool
  Kafka : Bool
  Grpc : Bool

/-! ## Documents, buffers, the outside world -/

/-- Value a parsed YAML document holds at a key.

* `str s`: a string.
* `int n`: an integer, as YAML decodes it into `int`, `int64` or `uint64`, so
  from `-2^63` to `2^64 - 1`; a numeral beyond that decodes as a float.
* `bool b`: a boolean.
* `other text trunc`: any other value (a float, a sequence, a mapping), given by
  what the two conversions make of it: `cast.ToString` returns `text`,
  `cast.ToInt` returns `trunc` (for the float `1.9`: `"1.9"` and `1`). -/
inductive Value where
  | str (s : String)
  | int (n : Int)
  | bool (b : Bool)
  | other (text : String) (trunc : Int)
  deriving DecidableEq

/-- Parsed configuration document as `viper` searches it: every leaf that a
dotted lower-case key path reaches, with its scalar.  A key without an entry is
absent from the document (or null). -/
abbrev Document := List (String × Value)

/-- Content handed to `viper`'s YAML reader, abstracted to what the reader makes
of it: either it does not parse, or it denotes a document. -/
inductive Buffer where
  | malformed
  | yaml (d : Document)
  deriving DecidableEq

/-- Errors that reach `LoadConf`. -/
inductive Error where
  | readFile (path : String)
  | parse
  | configFileNotFound
  deriving DecidableEq

/-- Everything outside `config.go` that a call of `LoadConf` depends on.

* `readFile p`: `ioutil.ReadFile(p)`; `none` is a read error.
* `findConfigFile dirs name`: the file `viper` locates for the configuration
  name `name` in the registered directories `dirs`, `none` when there is none.
* `lookupEnv n`: `os.LookupEnv(n)`; `none` when the variable is not set.
* `toUpper s`: the library function `strings.ToUpper`.
* `parseInt s`: the string case of `cast.ToIntE`, which depends on the version
  of `cast` linked in; `none` when it returns an error. -/
structure World where
  readFile : String → Option Buffer
  findConfigFile : List String → String → Option String
  lookupEnv : String → Option String
  toUpper : String → String
  parseInt : String → Option Int

/-! ## The schema: `ConfYaml` and its sections -/

/-- Section `core`. -/
structure SectionCore where
  Mode : String
  WorkPoolSize : Int
  deriving DecidableEq

/-- Section `postgres`, declared only under `{{ if Postgres }}`. -/
structure SectionPostgres where
  Host : String
  Port : Int
  DB : String
  User : String
  Pass : String
  BatchCount : Int
  deriving DecidableEq

/-- Section `kafka`, declared only under `{{ if Kafka }}`. -/
structure SectionKafka where
  BootstrapServers : String
  GroupId : String
  AutoOffsetReset : String
  Topic : String
  deriving DecidableEq

/-- Section `prometheus`. -/
structure SectionPrometheus where
  Port : Int
  deriving DecidableEq

/-- Section `log`. -/
structure SectionLog where
  Level : String
  deriving DecidableEq

/-- Section `endpoints.grpc`, declared only under `{{ if Grpc }}`. -/
structure SectionGrpc where
  Address : String
  deriving DecidableEq

/-- Section `endpoints.http`. -/
structure SectionHttp where
  Address : String
  User : String
  Pass : String
  deriving DecidableEq

/-- Section `endpoints`; the field `Grpc` exists only under `{{ if Grpc }}`
(`none` when the generated struct has no such field). -/
structure SectionEndpoints where
  Grpc : Option SectionGrpc
  Http : SectionHttp
  deriving DecidableEq

/-- The configuration struct.  A field under a template conditional is `none`
when the generated struct does not have it. -/
structure ConfYaml where
  Core : SectionCore
  Postgres : Option SectionPostgres
  Kafka : Option SectionKafka
  Prometheus : SectionPrometheus
  Log : SectionLog
  Endpoints : SectionEndpoints
  deriving DecidableEq

/-- Go zero value of `ConfYaml` (`var conf ConfYaml`) for the generated struct. -/
def ConfYaml.zero (f : Params) : ConfYaml :=
  { Core := { Mode := "", WorkPoolSize := 0 }
    Postgres :=
      if f.Postgres then
        some { Host := "", Port := 0, DB := "", User := "", Pass := "", BatchCount := 0 }
      else none
    Kafka :=
      if f.Kafka then
        some { BootstrapServers := "", GroupId := "", AutoOffsetReset := "", Topic := "" }
      else none
    Prometheus := { Port := 0 }
    Log := { Level := "" }
    Endpoints :=
      { Grpc := if f.Grpc then some { Address := "" } else none
        Http := { Address := "", User := "", Pass := "" } } }

/-- Leaves of a `ConfYaml` by the dotted path of their `yaml` tags, in
declaration order, each with its typed value. -/
def ConfYaml.fields (c : ConfYaml) : List (String × Value) :=
  [("core.mode", Value.str c.Core.Mode),
   ("core.work_pool_size", Value.int c.Core.WorkPoolSize)]
  ++ (match c.Postgres with
      | some p =>
        [("postgres.host", Value.str p.Host),
         ("postgres.port", Value.int p.Port),
         ("postgres.db", Value.str p.DB),
         ("postgres.user", Value.str p.User),
         ("postgres.pass", Value.str p.Pass),
         ("postgres.batch_count", Value.int p.BatchCount)]
      | none => [])
  ++ (match c.Kafka with
      | some k =>
        [("kafka.bootstrap_servers", Value.str k.BootstrapServers),
         ("kafka.group_id", Value.str k.GroupId),
         ("kafka.auto_offset_reset", Value.str k.AutoOffsetReset),
         ("kafka.topic", Value.str k.Topic)]
      | none => [])
  ++ [("prometheus.port", Value.int c.Prometheus.Port),
      ("log.level", Value.str c.Log.Level)]
  ++ (match c.Endpoints.Grpc with
      | some g => [("endpoints.grpc.address", Value.str g.Address)]
      | none => [])
  ++ [("endpoints.http.address", Value.str c.Endpoints.Http.Address),
      ("endpoints.http.user", Value.str c.Endpoints.Http.User),
      ("endpoints.http.pass", Value.str c.Endpoints.Http.Pass)]

/-- Leaf of a `ConfYaml` at a dotted key; `none` when the struct has no such leaf. -/
def ConfYaml.field (c : ConfYaml) (k : String) : Option Value :=
  c.fields.lookup k

/-- Dotted keys of the leaves of a `ConfYaml`. -/
def ConfYaml.leafKeys (c : ConfYaml) : List String :=
  c.fields.map Prod.fst

/-- The built-in default document `defaultConf`, as the YAML literal parses
after the template conditionals are resolved. -/
def defaultDocument (f : Params) : Document :=
  [("core.mode", Value.str "release"),
   ("core.work_pool_size", Value.int 1000)]
  ++ (if f.Postgres then
        [("postgres.host", Value.str ""),
         ("postgres.port", Value.int 5432),
         ("postgres.db", Value.str ""),
         ("postgres.user", Value.str ""),
         ("postgres.pass", Value.str ""),
         ("postgres.batch_count", Value.int 5)]
      else [])
  ++ (if f.Kafka then
        [("kafka.bootstrap_servers", Value.str ""),
         ("kafka.group_id", Value.str "random"),
         ("kafka.auto_offset_reset", Value.str "earliest"),
         ("kafka.topic", Value.str f.ProjectName)]
      else [])
  ++ [("prometheus.port", Value.int 8080),
      ("log.level", Value.str "debug")]
  ++ (if f.Grpc then [("endpoints.grpc.address", Value.str "127.0.0.1:5050")] else [])
  ++ [("endpoints.http.address", Value.str ":4040"),
      ("endpoints.http.user", Value.str "test"),
      ("endpoints.http.pass", Value.str "test")]

/-- The byte literal `defaultConf`: well-formed YAML denoting `defaultDocument`. -/
def defaultConf (f : Params) : Buffer :=
  Buffer.yaml (defaultDocument f)

/-! ## The `viper` calls made by `LoadConf` -/

/-- The package-level `viper` instance, restricted to what `config.go` sets and
reads.  The layers `config.go` never fills (`Set` overrides, flags, bound
variables, key/value store, `SetDefault` defaults, aliases) are empty and left
out. -/
structure Viper where
  configType : String
  automaticEnvApplied : Bool
  envPrefix : String
  envKeyReplacer : Option (String → String)
  configPaths : List String
  configName : String
  config : Document

/-- State of `viper.New()`. -/
def Viper.New : Viper :=
  { configType := "", automaticEnvApplied := false, envPrefix := "",
    envKeyReplacer := none, configPaths := [], configName := "", config := [] }

/-- The replacer `strings.NewReplacer(".", "_")`. -/
def replaceDots (s : String) : String :=
  String.mk (s.data.map fun c => if c = '.' then '_' else c)

/-- Call `viper.SetConfigType`. -/
def SetConfigType (v : Viper) (t : String) : Viper :=
  { v with configType := t }

/-- Call `viper.AutomaticEnv`. -/
def AutomaticEnv (v : Viper) : Viper :=
  { v with automaticEnvApplied := true }

/-- Call `viper.SetEnvPrefix`. -/
def SetEnvPrefix (v : Viper) (p : String) : Viper :=
  { v with envPrefix := p }

/-- Call `viper.SetEnvKeyReplacer`. -/
def SetEnvKeyReplacer (v : Viper) (r : String → String) : Viper :=
  { v with envKeyReplacer := some r }

/-- Call `viper.AddConfigPath`: a non-empty directory is appended unless it is
registered already. -/
def AddConfigPath (v : Viper) (dir : String) : Viper :=
  if dir ≠ "" ∧ dir ∉ v.configPaths then
    { v with configPaths := v.configPaths ++ [dir] }
  else v

/-- Call `viper.SetConfigName`. -/
def SetConfigName (v : Viper) (n : String) : Viper :=
  { v with configName := n }

/-- Call `viper.ReadConfig`: the configuration layer is replaced by what the
buffer parses to. -/
def ReadConfig (v : Viper) (buf : Buffer) : Viper × Option Error :=
  match buf with
  | Buffer.malformed => ({ v with config := [] }, some Error.parse)
  | Buffer.yaml d => ({ v with config := d }, none)

/-- Call `viper.ReadInConfig`: locate the file, read it, parse it; the
configuration layer is replaced only on success. -/
def ReadInConfig (w : World) (v : Viper) : Viper × Option Error :=
  match w.findConfigFile v.configPaths v.configName with
  | none => (v, some Error.configFileNotFound)
  | some file =>
    match w.readFile file with
    | none => (v, some (Error.readFile file))
    | some Buffer.malformed => (v, some Error.parse)
    | some (Buffer.yaml d) => ({ v with config := d }, none)

/-- Method `mergeWithEnvPrefix` of `viper`. -/
def mergeWithEnvPrefix (w : World) (v : Viper) (key : String) : String :=
  if v.envPrefix ≠ "" then w.toUpper (v.envPrefix ++ "_" ++ key) else w.toUpper key

/-- Method `getEnv` of `viper`: the replacer is applied to the name, and a
variable set to the empty string counts as not set (`AllowEmptyEnv` is off). -/
def getEnv (w : World) (v : Viper) (key : String) : Option String :=
  let key := match v.envKeyReplacer with
    | some r => r key
    | none => key
  match w.lookupEnv key with
  | some val => if val ≠ "" then some val else none
  | none => none

/-- Splitting at dots: `strings.Split(s, ".")` on the characters of `s`. -/
def splitDots : List Char → List (List Char)
  | [] => [[]]
  | c :: cs =>
    match splitDots cs with
    | [] => [[c]]
    | p :: ps => if c = '.' then [] :: p :: ps else (c :: p) :: ps

/-- Proper prefixes of a key path, joined by dots: `path[0:i]` for
`1 ≤ i < len(path)`. -/
def parentKeys : List String → List String
  | [] => []
  | [_] => []
  | x :: y :: rest => x :: (parentKeys (y :: rest)).map fun p => x ++ "." ++ p

/-- Parent paths of a dotted key. -/
def keyParents (key : String) : List String :=
  parentKeys ((splitDots key.data).map String.mk)

/-- Method `isPathShadowedInAutoEnv` of `viper`: the first parent path of the key
whose own variable is set, or `""`. -/
def isPathShadowedInAutoEnv (w : World) (v : Viper) (key : String) : String :=
  match (keyParents key).find? fun p => (getEnv w v (mergeWithEnvPrefix w v p)).isSome with
  | some p => p
  | none => ""

/-- Method `find` of `viper` over the layers in use.  With `AutomaticEnv` on, the
key's own environment variable is consulted first (`getEnv`); failing that, a
nested key is reported absent when `isPathShadowedInAutoEnv` finds the variable
of one of its parent paths set; only then is the configuration layer
searched. -/
def find (w : World) (v : Viper) (key : String) : Option Value :=
  let viaConfig :=
    v.config.lookup key
  if v.automaticEnvApplied then
    match getEnv w v (mergeWithEnvPrefix w v key) with
    | some val => some (Value.str val)
    | none =>
      if 1 < (splitDots key.data).length ∧ isPathShadowedInAutoEnv w v key ≠ "" then none
      else viaConfig
  else viaConfig

/-- Conversion `cast.ToString`: `nil` gives `""`. -/
def castToString : Option Value → String
  | none => ""
  | some (Value.str s) => s
  | some (Value.int n) => toString n
  | some (Value.bool b) => if b then "true" else "false"
  | some (Value.other text _) => text

/-- Go's conversion `int(x)` to the 64-bit `int`: the value modulo `2^64`, taken
in the range from `-2^63` to `2^63 - 1`. -/
def wrapInt (n : Int) : Int :=
  (n + 9223372036854775808) % 18446744073709551616 - 9223372036854775808

/-- Conversion `cast.ToInt`: `nil` and every conversion error give `0`; the
result is a 64-bit `int`, so an integer above `2^63 - 1` wraps. -/
def castToInt (w : World) : Option Value → Int
  | none => 0
  | some (Value.str s) => wrapInt ((w.parseInt s).getD 0)
  | some (Value.int n) => wrapInt n
  | some (Value.bool b) => if b then 1 else 0
  | some (Value.other _ trunc) => wrapInt trunc

/-- Call `viper.GetString`. -/
def GetString (w : World) (v : Viper) (key : String) : String :=
  castToString (find w v key)

/-- Call `viper.GetInt`. -/
def GetInt (w : World) (v : Viper) (key : String) : Int :=
  castToInt w (find w v key)

/-! ## `LoadConf` -/

/-- What a call of `LoadConf` leaves: the two return values and the state of the
package-level `viper` instance. -/
structure LoadResult where
  conf : ConfYaml
  err : Option Error
  viper : Viper

/-- Tail of `LoadConf` (from `// Core` to `return conf, nil`): every leaf of
`conf` is assigned from `viper`. -/
def LoadConf.assign (f : Params) (w : World) (v : Viper) : ConfYaml :=
  { Core :=
      { Mode := GetString w v "core.mode"
        WorkPoolSize := GetInt w v "core.work_pool_size" }
    Postgres :=
      if f.Postgres then
        some
          { Host := GetString w v "postgres.host"
            Port := GetInt w v "postgres.port"
            DB := GetString w v "postgres.db"
            User := GetString w v "postgres.user"
            Pass := GetString w v "postgres.pass"
            BatchCount := GetInt w v "postgres.batch_count" }
      else none
    Kafka :=
      if f.Kafka then
        some
          { BootstrapServers := GetString w v "kafka.bootstrap_servers"
            GroupId := GetString w v "kafka.group_id"
            AutoOffsetReset := GetString w v "kafka.auto_offset_reset"
            Topic := GetString w v "kafka.topic" }
      else none
    Prometheus := { Port := GetInt w v "prometheus.port" }
    Log := { Level := GetString w v "log.level" }
    Endpoints :=
      { Grpc :=
          if f.Grpc then some { Address := GetString w v "endpoints.grpc.address" }
          else none
        Http :=
          { Address := GetString w v "endpoints.http.address"
            User := GetString w v "endpoints.http.user"
            Pass := GetString w v "endpoints.http.pass" } } }

/-- Head of `LoadConf`: the four settings made before the source is chosen. -/
def LoadConf.envSettings (f : Params) (v : Viper) : Viper :=
  SetEnvKeyReplacer (SetEnvPrefix (AutomaticEnv (SetConfigType v "yaml")) f.ProjectName)
    replaceDots

/-- The `else` branch of `LoadConf` up to `viper.SetConfigName("config")`. -/
def LoadConf.searchSettings (f : Params) (v : Viper) : Viper :=
  SetConfigName
    (AddConfigPath
      (AddConfigPath
        (AddConfigPath v ("/etc/" ++ f.ProjectName ++ "/"))
        ("$HOME/." ++ f.ProjectName))
      ".")
    "config"

/-- Method `LoadConf` of `Config`. -/
def LoadConf (f : Params) (w : World) (v : Viper) (confPath : String) : LoadResult :=
  let conf := ConfYaml.zero f
  let v := LoadConf.envSettings f v
  if confPath ≠ "" then
    match w.readFile confPath with
    | none => { conf := conf, err := some (Error.readFile confPath), viper := v }
    | some content =>
      match ReadConfig v content with
      | (v, some err) => { conf := conf, err := some err, viper := v }
      | (v, none) => { conf := LoadConf.assign f w v, err := none, viper := v }
  else
    let v := LoadConf.searchSettings f v
    match ReadInConfig w v with
    | (v, none) => { conf := LoadConf.assign f w v, err := none, viper := v }
    | (v, some _) =>
      match ReadConfig v (defaultConf f) with
      | (v, some err) => { conf := conf, err := some err, viper := v }
      | (v, none) => { conf := LoadConf.assign f w v, err := none, viper := v }

/-! ## The process-wide `Config` -/

/-- The struct `Config`, which embeds `ConfYaml`. -/
structure Config where
  ConfYaml : Gotemp.ConfYaml
  deriving DecidableEq

/-- Function `NewConfig`: a fresh `Config`, all fields zero. -/
def NewConfig (f : Params) : Config :=
  { ConfYaml := ConfYaml.zero f }

/-- Package-level state of a running process: the `sync.Once` guard `confOnce`
(`true` once its function has run), the pointer variable `config` (`none` is
`nil`, `some a` the address `a`), the allocated `Config` objects by address, and
the `viper` instance. -/
structure Proc where
  confOnce : Bool
  config : Option Nat
  heap : List Config
  viper : Viper

/-- State of a process before any call. -/
def Proc.start : Proc :=
  { confOnce := false, config := none, heap := [], viper := Viper.New }

/-- The `Config` a pointer refers to. -/
def Proc.deref (s : Proc) (p : Option Nat) : Option Config :=
  match p with
  | none => none
  | some a => s.heap[a]?

/-- Function `GetConfig`: under the `sync.Once` guard, allocate a `NewConfig` and
store its address in `config`; return `config`. -/
def GetConfig (f : Params) (s : Proc) : Option Nat × Proc :=
  let s :=
    if s.confOnce then s
    else
      { s with
        confOnce := true
        config := some s.heap.length
        heap := s.heap ++ [NewConfig f] }
  (s.config, s)

/-- Calls of `GetConfig` in sequence: the pointers returned, in order, and the
final state. -/
def GetConfigSeq (f : Params) : Nat → Proc → List (Option Nat) × Proc
  | 0, s => ([], s)
  | n + 1, s =>
    let r := GetConfig f s
    let rest := GetConfigSeq f n r.2
    (r.1 :: rest.1, rest.2)

/-- How a call of `Initialize` ends: it returns, or `log.Fatalf` terminates the
process with the load error, or the receiver is not a valid pointer. -/
inductive Outcome where
  | returned (s : Proc)
  | fatal (e : Error) (s : Proc)
  | nilDereference (s : Proc)

/-- Method `Initialize` of `Config` on the receiver at address `config`: the
result of `LoadConf` is stored in the receiver's `ConfYaml` before the error is
inspected. -/
def Initialize (f : Params) (w : World) (s : Proc) (config : Nat) (path : String) : Outcome :=
  let r := LoadConf f w s.viper path
  if config < s.heap.length then
    let s := { s with viper := r.viper, heap := s.heap.set config { ConfYaml := r.conf } }
    match r.err with
    | some e => Outcome.fatal e s
    | none => Outcome.returned s
  else Outcome.nilDereference { s with viper := r.viper }

/-- State in which a call of `Initialize` ends. -/
def Outcome.state : Outcome → Proc
  | Outcome.returned s => s
  | Outcome.fatal _ s => s
  | Outcome.nilDereference s => s

/-! ## Vocabulary of the statements -/

/-- Keys `LoadConf` reads, in the order of its `viper.Get…` calls. -/
def schemaKeys (f : Params) : List String :=
  ["core.mode", "core.work_pool_size"]
  ++ (if f.Postgres then
        ["postgres.host", "postgres.port", "postgres.db", "postgres.user", "postgres.pass",
         "postgres.batch_count"]
      else [])
  ++ (if f.Kafka then
        ["kafka.bootstrap_servers", "kafka.group_id", "kafka.auto_offset_reset", "kafka.topic"]
      else [])
  ++ ["prometheus.port", "log.level"]
  ++ (if f.Grpc then ["endpoints.grpc.address"] else [])
  ++ ["endpoints.http.address", "endpoints.http.user", "endpoints.http.pass"]

/-- Keys of the fields declared `int`. -/
def intKeys : List String :=
  ["core.work_pool_size", "postgres.port", "postgres.batch_count", "prometheus.port"]

/-- Name of the environment variable `viper` consults for a key once `LoadConf`
has made its settings: `<prefix>_<key>` upper-cased, every dot replaced by an
underscore (no prefix when the project name is empty). -/
def envKey (f : Params) (w : World) (key : String) : String :=
  replaceDots
    (if f.ProjectName ≠ "" then w.toUpper (f.ProjectName ++ "_" ++ key) else w.toUpper key)

/-- A variable is effectively set: set, and not to the empty string. -/
def envSet (w : World) (name : String) : Prop :=
  ∃ s, w.lookupEnv name = some s ∧ s ≠ ""

/-- Typed value a field of key `k` takes from a raw value: integer fields go
through `cast.ToInt`, string fields through `cast.ToString`. -/
def typed (w : World) (k : String) (x : Option Value) : Value :=
  if k ∈ intKeys then Value.int (castToInt w x) else Value.str (castToString x)

/-- Digit value of a character in `strconv.ParseUint`: `0`–`9`, then letters of
either case from `10`; `none` for any other character. -/
def digitValue (c : Char) : Option Nat :=
  if 48 ≤ c.toNat ∧ c.toNat ≤ 57 then some (c.toNat - 48)
  else if 97 ≤ c.toNat ∧ c.toNat ≤ 122 then some (c.toNat - 97 + 10)
  else if 65 ≤ c.toNat ∧ c.toNat ≤ 90 then some (c.toNat - 65 + 10)
  else none

/-- The digit loop of `strconv.ParseUint` called with base argument `0`:
underscores are skipped, every other character must be a digit below `base`.
The value is accumulated without bound; the range is checked by `ParseInt`. -/
def parseDigits (base : Nat) : List Char → Nat → Option Nat
  | [], n => some n
  | c :: cs, n =>
    if c = '_' then parseDigits base cs n
    else
      match digitValue c with
      | some d => if d < base then parseDigits base cs (n * base + d) else none
      | none => none

/-- Last character class seen by `underscoreOK`: `'^'`, `'0'`, `'_'`, `'!'`. -/
inductive Seen where
  | start
  | digit
  | underscore
  | other
  deriving DecidableEq

/-- The loop of `strconv.underscoreOK` over the number proper. -/
def underscoreLoop (hex : Bool) : List Char → Seen → Bool
  | [], i => decide (i ≠ Seen.underscore)
  | c :: cs, i =>
    if (48 ≤ c.toNat ∧ c.toNat ≤ 57) ∨
        (hex = true ∧ ((97 ≤ c.toNat ∧ c.toNat ≤ 102) ∨ (65 ≤ c.toNat ∧ c.toNat ≤ 70))) then
      underscoreLoop hex cs Seen.digit
    else if c = '_' then
      if i ≠ Seen.digit then false else underscoreLoop hex cs Seen.underscore
    else if i = Seen.underscore then false
    else underscoreLoop hex cs Seen.other

/-- Function `strconv.underscoreOK`: underscores may only separate digits, or
the base prefix from the digits. -/
def underscoreOK (s : List Char) : Bool :=
  let s := match s with
    | '-' :: r => r
    | '+' :: r => r
    | r => r
  match s with
  | '0' :: c :: r =>
    if c = 'b' ∨ c = 'B' ∨ c = 'o' ∨ c = 'O' ∨ c = 'x' ∨ c = 'X' then
      underscoreLoop (decide (c = 'x' ∨ c = 'X')) r Seen.digit
    else underscoreLoop false s Seen.start
  | _ => underscoreLoop false s Seen.start

/-- Function `strconv.ParseUint(s, 0, 64)` up to the range check: the base is
read off the prefix (`0b`, `0o`, `0x`, a leading `0` for octal, else decimal). -/
def ParseUint (s : List Char) : Option Nat :=
  let digits : Option Nat :=
    match s with
    | [] => none
    | '0' :: rest =>
      match rest with
      | c :: d :: r =>
        if c = 'b' ∨ c = 'B' then parseDigits 2 (d :: r) 0
        else if c = 'o' ∨ c = 'O' then parseDigits 8 (d :: r) 0
        else if c = 'x' ∨ c = 'X' then parseDigits 16 (d :: r) 0
        else parseDigits 8 rest 0
      | _ => parseDigits 8 rest 0
    | _ => parseDigits 10 s 0
  if '_' ∈ s ∧ underscoreOK s = false then none else digits

/-- Function `strconv.ParseInt(s, 0, 0)` with a 64-bit `int`; `none` on a syntax
or range error. -/
def ParseInt (s : List Char) : Option Int :=
  match s with
  | [] => none
  | c :: cs =>
    match ParseUint (if c = '+' ∨ c = '-' then cs else c :: cs) with
    | none => none
    | some un =>
      if c = '-' then (if un ≤ 2 ^ 63 then some (-(un : Int)) else none)
      else if un < 2 ^ 63 then some (un : Int) else none

/-- A run of decimal digits is split off the front. -/
def spanDigits : List Char → List Char × List Char
  | [] => ([], [])
  | c :: cs =>
    if 48 ≤ c.toNat ∧ c.toNat ≤ 57 then ((spanDigits cs).1.cons c, (spanDigits cs).2)
    else ([], c :: cs)

/-- Function `trimDecimal` of `cast`: a string of the shape sign, digits, `.`,
digits loses its decimal part (an empty integer part reads `0`); any other
string is unchanged. -/
def trimDecimal (s : List Char) : List Char :=
  if '.' ∉ s then s
  else
    let sign : List Char := match s with
      | '-' :: _ => ['-']
      | '+' :: _ => ['+']
      | _ => []
    let body := match s with
      | '-' :: r => r
      | '+' :: r => r
      | r => r
    match (spanDigits body).2 with
    | '.' :: frac =>
      if (spanDigits frac).2 = [] then
        if (spanDigits body).1 = [] then sign ++ ['0'] else sign ++ (spanDigits body).1
      else s
    | _ => s

/-- String case of `cast.ToIntE` in the versions of `cast` that trim the decimal
part: `strconv.ParseInt(trimDecimal(s), 0, 0)`.  It is the instance of
`World.parseInt` in the concrete worlds. -/
def castParseInt (s : String) : Option Int :=
  ParseInt (trimDecimal s.data)

/-- Function `strings.ToUpper` on a string of ASCII characters, where it
upper-cases the letters `a` to `z`.  It is the instance of `World.toUpper` in the
concrete worlds, which upper-case ASCII names only. -/
def toUpperASCII (s : String) : String :=
  String.mk
    (s.data.map fun c => if 97 ≤ c.toNat ∧ c.toNat ≤ 122 then Char.ofNat (c.toNat - 32) else c)

/-- Go zero value of the field of key `k`: `0` for an `int`, `""` for a `string`. -/
def zeroValue (k : String) : Value :=
  if k ∈ intKeys then Value.int 0 else Value.str ""

/-- Keys of the sections every generated struct has: `core`, `prometheus`,
`log` and `endpoints.http`. -/
def unconditionalKeys : List String :=
  ["core.mode", "core.work_pool_size", "prometheus.port", "log.level",
   "endpoints.http.address", "endpoints.http.user", "endpoints.http.pass"]

/-- Keys of `SectionPostgres`. -/
def postgresKeys : List String :=
  ["postgres.host", "postgres.port", "postgres.db", "postgres.user", "postgres.pass",
   "postgres.batch_count"]

/-- Keys of `SectionKafka`. -/
def kafkaKeys : List String :=
  ["kafka.bootstrap_servers", "kafka.group_id", "kafka.auto_offset_reset", "kafka.topic"]

/-- Keys of `SectionGrpc`. -/
def grpcKeys : List String :=
  ["endpoints.grpc.address"]

/-- The settings `LoadConf` makes at its head are in force in a `viper` state. -/
def Configured (f : Params) (v : Viper) : Prop :=
  v.automaticEnvApplied = true ∧ v.envPrefix = f.ProjectName ∧
    v.envKeyReplacer = some replaceDots

/-- The file `viper.ReadInConfig` locates when `LoadConf` runs its search branch
from the state `v`: name `config` in the directories registered by then. -/
def searchedFile (f : Params) (w : World) (v : Viper) : Option String :=
  w.findConfigFile (LoadConf.searchSettings f (LoadConf.envSettings f v)).configPaths "config"

/-- An explicit path is given, its file is read and parses to `d`. -/
def ExplicitDocument (w : World) (path : String) (d : Document) : Prop :=
  path ≠ "" ∧ w.readFile path = some (Buffer.yaml d)

/-- No explicit path is given, and the search finds a file that is read and
parses to `d`. -/
def FoundDocument (f : Params) (w : World) (v : Viper) (path : String) (d : Document) : Prop :=
  path = "" ∧ ∃ file, searchedFile f w v = some file ∧ w.readFile file = some (Buffer.yaml d)

/-- No explicit path is given, and `viper.ReadInConfig` fails: no file is found,
or the file found cannot be read, or it cannot be parsed. -/
def SearchFails (f : Params) (w : World) (v : Viper) (path : String) : Prop :=
  path = "" ∧
    (searchedFile f w v = none ∨
      ∃ file, searchedFile f w v = some file ∧
        (w.readFile file = none ∨ w.readFile file = some Buffer.malformed))

/-- The document `d` is the base document of a call `LoadConf path`: the explicit
one, else the one found, else the built-in default. -/
def BaseDocument (f : Params) (w : World) (v : Viper) (path : String) (d : Document) : Prop :=
  ExplicitDocument w path d ∨ FoundDocument f w v path d ∨
    (SearchFails f w v path ∧ d = defaultDocument f)

/-! ## Concrete inputs -/

/-- A generated service named `gotemp` with all three capabilities. -/
def sample : Params :=
  { ProjectName := "gotemp", Postgres := true, Kafka := true, Grpc := true }

/-- A world given by its files, the file the search finds, and its environment. -/
def worldOf (files : List (String × Buffer)) (found : Option String)
    (env : List (String × String)) : World :=
  { readFile := fun p => files.lookup p
    findConfigFile := fun _ _ => found
    lookupEnv := fun n => env.lookup n
    toUpper := toUpperASCII
    parseInt := castParseInt }

/-- A document whose `core.work_pool_size` is `2^63`, one above the largest
64-bit `int`. -/
def wideDocument : Document :=
  [("core.work_pool_size", Value.int 9223372036854775808)]

/-- A document with three of the keys. -/
def poolDocument : Document :=
  [("core.mode", Value.str "release"), ("core.work_pool_size", Value.int 1000),
   ("endpoints.http.address", Value.str ":4040")]

/-- The `ConfYaml` that `LoadConf` yields from the default document alone. -/
def defaultedConf : ConfYaml :=
  (LoadConf sample (worldOf [] none []) Viper.New "").conf

/-- A process that has called `GetConfig` and then `Initialize("")` on the result,
in a world without files and with an empty environment. -/
def resolvedProc : Proc :=
  (Initialize sample (worldOf [] none []) (GetConfig sample Proc.start).2 0 "").state

/-! ## Auxiliary lemmas: environment lookup -/

theorem getEnv_configured {f : Params} {v : Viper} (hv : Configured f v) (w : World)
    (k : String) :
    getEnv w v (mergeWithEnvPrefix w v k) =
      match w.lookupEnv (envKey f w k) with
      | some val => if val ≠ "" then some val else none
      | none => none := by
  obtain ⟨_, h2, h3⟩ := hv
  simp only [getEnv, mergeWithEnvPrefix, envKey, h2, h3]

theorem getEnv_eq_some {f : Params} {v : Viper} (hv : Configured f v) {w : World}
    {k s : String} (hs : w.lookupEnv (envKey f w k) = some s) (hne : s ≠ "") :
    getEnv w v (mergeWithEnvPrefix w v k) = some s := by
  rw [getEnv_configured hv, hs]; simp [hne]

theorem getEnv_eq_none {f : Params} {v : Viper} (hv : Configured f v) {w : World}
    {k : String} (hs : ¬ envSet w (envKey f w k)) :
    getEnv w v (mergeWithEnvPrefix w v k) = none := by
  rw [getEnv_configured hv]
  cases h : w.lookupEnv (envKey f w k) with
  | none => rfl
  | some s =>
    by_cases hne : s = ""
    · simp [hne]
    · exact absurd ⟨s, h, hne⟩ hs

theorem not_envSet_of_none {w : World} {n : String} (h : w.lookupEnv n = none) :
    ¬ envSet w n := by
  rintro ⟨s, hs, _⟩
  rw [h] at hs
  exact Option.noConfusion hs

theorem find_env {f : Params} {v : Viper} (hv : Configured f v) {w : World}
    {k s : String} (hs : w.lookupEnv (envKey f w k) = some s) (hne : s ≠ "") :
    find w v k = some (Value.str s) := by
  simp only [find, hv.1, getEnv_eq_some hv hs hne, if_true]

theorem isPathShadowed_none {f : Params} {v : Viper} (hv : Configured f v) {w : World}
    {k : String} (hp : ∀ p ∈ keyParents k, ¬ envSet w (envKey f w p)) :
    isPathShadowedInAutoEnv w v k = "" := by
  unfold isPathShadowedInAutoEnv
  have hnone :
      (keyParents k).find? (fun p => (getEnv w v (mergeWithEnvPrefix w v p)).isSome) = none := by
    rw [List.find?_eq_none]
    intro p hmem
    simp [getEnv_eq_none hv (hp p hmem)]
  rw [hnone]

theorem find_config {f : Params} {v : Viper} (hv : Configured f v) {w : World}
    {k : String} (hk : ¬ envSet w (envKey f w k))
    (hp : ∀ p ∈ keyParents k, ¬ envSet w (envKey f w p)) :
    find w v k = v.config.lookup k := by
  simp only [find, hv.1, getEnv_eq_none hv hk, isPathShadowed_none hv hp, if_true]
  simp

theorem find_absent {f : Params} {v : Viper} (hv : Configured f v) {w : World}
    {k : String} (hk : ¬ envSet w (envKey f w k)) (hd : v.config.lookup k = none) :
    find w v k = none := by
  simp only [find, hv.1, getEnv_eq_none hv hk, if_true, hd]
  simp

/-! ## Auxiliary lemmas: the fields `LoadConf` assigns -/

theorem assign_field (f : Params) (w : World) (v : Viper) {k : String}
    (hk : k ∈ schemaKeys f) :
    (LoadConf.assign f w v).field k = some (typed w k (find w v k)) := by
  obtain ⟨name, pg, kf, gr⟩ := f
  cases pg <;> cases kf <;> cases gr <;>
    simp only [schemaKeys, if_true, if_false, Bool.false_eq_true, List.append_nil,
      List.nil_append, List.cons_append] at hk <;>
    fin_cases hk <;> rfl

theorem zero_field (f : Params) {k : String} (hk : k ∈ schemaKeys f) :
    (ConfYaml.zero f).field k = some (zeroValue k) := by
  obtain ⟨name, pg, kf, gr⟩ := f
  cases pg <;> cases kf <;> cases gr <;>
    simp only [schemaKeys, if_true, if_false, Bool.false_eq_true, List.append_nil,
      List.nil_append, List.cons_append] at hk <;>
    fin_cases hk <;> rfl

theorem wrapInt_range (n : Int) :
    -9223372036854775808 ≤ wrapInt n ∧ wrapInt n ≤ 9223372036854775807 := by
  unfold wrapInt
  omega

theorem wrapInt_of_range (n : Int) (h1 : -9223372036854775808 ≤ n)
    (h2 : n ≤ 9223372036854775807) : wrapInt n = n := by
  unfold wrapInt
  omega

theorem castToInt_range (w : World) (x : Option Value) :
    -9223372036854775808 ≤ castToInt w x ∧ castToInt w x ≤ 9223372036854775807 := by
  unfold castToInt
  split
  · decide
  · exact wrapInt_range _
  · exact wrapInt_range _
  · split <;> decide
  · exact wrapInt_range _

theorem typed_none (w : World) (k : String) : typed w k none = zeroValue k := by
  simp only [typed, zeroValue, castToInt, castToString]

theorem default_lookup (f : Params) (w : World) {k : String} (hk : k ∈ schemaKeys f) :
    ∃ x, (defaultDocument f).lookup k = some x ∧ typed w k (some x) = x := by
  obtain ⟨name, pg, kf, gr⟩ := f
  cases pg <;> cases kf <;> cases gr <;>
    simp only [schemaKeys, if_true, if_false, Bool.false_eq_true, List.append_nil,
      List.nil_append, List.cons_append] at hk <;>
    fin_cases hk <;> exact ⟨_, rfl, rfl⟩

theorem leafKeys_assign (f : Params) (w : World) (v : Viper) :
    (LoadConf.assign f w v).leafKeys = schemaKeys f := by
  obtain ⟨name, pg, kf, gr⟩ := f
  cases pg <;> cases kf <;> cases gr <;> rfl

theorem leafKeys_zero (f : Params) : (ConfYaml.zero f).leafKeys = schemaKeys f := by
  obtain ⟨name, pg, kf, gr⟩ := f
  cases pg <;> cases kf <;> cases gr <;> rfl

theorem mem_ite_list (b : Bool) (l : List String) (k : String) :
    k ∈ (if b = true then l else []) ↔ b = true ∧ k ∈ l := by
  cases b <;> simp

theorem schemaKeys_nodup (f : Params) : (schemaKeys f).Nodup := by
  obtain ⟨name, pg, kf, gr⟩ := f
  cases pg <;> cases kf <;> cases gr <;> simp [schemaKeys]

theorem mem_schemaKeys (f : Params) (k : String) :
    k ∈ schemaKeys f ↔
      k ∈ unconditionalKeys ∨ (f.Postgres = true ∧ k ∈ postgresKeys) ∨
        (f.Kafka = true ∧ k ∈ kafkaKeys) ∨ (f.Grpc = true ∧ k ∈ grpcKeys) := by
  have hu : k ∈ unconditionalKeys ↔
      k ∈ ["core.mode", "core.work_pool_size"] ∨ k ∈ ["prometheus.port", "log.level"] ∨
        k ∈ ["endpoints.http.address", "endpoints.http.user", "endpoints.http.pass"] := by
    simp only [unconditionalKeys, List.mem_cons, List.mem_singleton, List.not_mem_nil, or_false,
      or_assoc]
  rw [hu]
  simp only [schemaKeys, List.mem_append, mem_ite_list, postgresKeys, kafkaKeys, grpcKeys]
  tauto

/-! ## Auxiliary lemmas: the branches of `LoadConf` -/

theorem addConfigPath_env (v : Viper) (dir : String) :
    (AddConfigPath v dir).automaticEnvApplied = v.automaticEnvApplied ∧
      (AddConfigPath v dir).envPrefix = v.envPrefix ∧
      (AddConfigPath v dir).envKeyReplacer = v.envKeyReplacer ∧
      (AddConfigPath v dir).configName = v.configName ∧
      (AddConfigPath v dir).config = v.config := by
  unfold AddConfigPath
  split <;> simp

theorem configured_envSettings (f : Params) (v : Viper) :
    Configured f (LoadConf.envSettings f v) :=
  ⟨rfl, rfl, rfl⟩

theorem configured_searchSettings {f : Params} {v : Viper} (hv : Configured f v) :
    Configured f (LoadConf.searchSettings f v) := by
  obtain ⟨h1, h2, h3⟩ := hv
  simp only [Configured, LoadConf.searchSettings, SetConfigName, addConfigPath_env]
  exact ⟨h1, h2, h3⟩

theorem configured_config {f : Params} {v : Viper} (hv : Configured f v) (d : Document) :
    Configured f { v with config := d } :=
  hv

theorem LoadConf_explicit (f : Params) (w : World) (v : Viper) {path : String} {d : Document}
    (h : ExplicitDocument w path d) :
    LoadConf f w v path =
      { conf := LoadConf.assign f w { LoadConf.envSettings f v with config := d }
        err := none
        viper := { LoadConf.envSettings f v with config := d } } := by
  obtain ⟨hp, hr⟩ := h
  simp only [LoadConf, hp, hr, ReadConfig, ne_eq, not_false_eq_true, if_true]

theorem LoadConf_found (f : Params) (w : World) (v : Viper) {path : String} {d : Document}
    (h : FoundDocument f w v path d) :
    LoadConf f w v path =
      { conf := LoadConf.assign f w
          { LoadConf.searchSettings f (LoadConf.envSettings f v) with config := d }
        err := none
        viper := { LoadConf.searchSettings f (LoadConf.envSettings f v) with config := d } } := by
  obtain ⟨hp, file, hs, hr⟩ := h
  subst hp
  have hs2 : w.findConfigFile (LoadConf.searchSettings f (LoadConf.envSettings f v)).configPaths
      (LoadConf.searchSettings f (LoadConf.envSettings f v)).configName = some file := hs
  simp only [LoadConf, ReadInConfig, hs2, hr, ne_eq, not_true_eq_false, if_false]

theorem LoadConf_default (f : Params) (w : World) (v : Viper) {path : String}
    (h : SearchFails f w v path) :
    LoadConf f w v path =
      { conf := LoadConf.assign f w
          { LoadConf.searchSettings f (LoadConf.envSettings f v) with
            config := defaultDocument f }
        err := none
        viper :=
          { LoadConf.searchSettings f (LoadConf.envSettings f v) with
            config := defaultDocument f } } := by
  obtain ⟨hp, hs⟩ := h
  subst hp
  have hn : (LoadConf.searchSettings f (LoadConf.envSettings f v)).configName = "config" := rfl
  unfold searchedFile at hs
  rcases hs with hs | ⟨file, hs, hr | hr⟩
  · simp only [LoadConf, ReadInConfig, hn, hs, ReadConfig, defaultConf, ne_eq,
      not_true_eq_false, if_false]
  · simp only [LoadConf, ReadInConfig, hn, hs, hr, ReadConfig, defaultConf, ne_eq,
      not_true_eq_false, if_false]
  · simp only [LoadConf, ReadInConfig, hn, hs, hr, ReadConfig, defaultConf, ne_eq,
      not_true_eq_false, if_false]

theorem LoadConf_of_base (f : Params) (w : World) (v : Viper) {path : String} {d : Document}
    (h : BaseDocument f w v path d) :
    ∃ u, Configured f u ∧ u.config = d ∧
      LoadConf f w v path = { conf := LoadConf.assign f w u, err := none, viper := u } := by
  rcases h with h | h | ⟨h, rfl⟩
  · exact ⟨_, configured_config (configured_envSettings f v) d, rfl, LoadConf_explicit f w v h⟩
  · exact ⟨_, configured_config (configured_searchSettings (configured_envSettings f v)) d, rfl,
      LoadConf_found f w v h⟩
  · exact ⟨_, configured_config (configured_searchSettings (configured_envSettings f v)) _, rfl,
      LoadConf_default f w v h⟩

theorem LoadConf_unreadable (f : Params) (w : World) (v : Viper) {path : String}
    (hp : path ≠ "") (hr : w.readFile path = none) :
    LoadConf f w v path =
      { conf := ConfYaml.zero f, err := some (Error.readFile path),
        viper := LoadConf.envSettings f v } := by
  simp only [LoadConf, hp, hr, ne_eq, not_false_eq_true, if_true]

theorem LoadConf_malformed (f : Params) (w : World) (v : Viper) {path : String}
    (hp : path ≠ "") (hr : w.readFile path = some Buffer.malformed) :
    LoadConf f w v path =
      { conf := ConfYaml.zero f, err := some Error.parse,
        viper := { LoadConf.envSettings f v with config := [] } } := by
  simp only [LoadConf, hp, hr, ReadConfig, ne_eq, not_false_eq_true, if_true]

theorem LoadConf_leafKeys (f : Params) (w : World) (v : Viper) (path : String) :
    (LoadConf f w v path).conf.leafKeys = schemaKeys f := by
  unfold LoadConf ReadInConfig ReadConfig defaultConf
  simp only
  split
  · split
    · exact leafKeys_zero f
    · split
      · exact leafKeys_zero f
      · exact leafKeys_assign f w _
  · split <;> exact leafKeys_assign f w _

/-! ## Auxiliary lemmas: the process state -/

theorem set_of_getElem? {α : Type} (l : List α) (a : Nat) (x : α) (h : l[a]? = some x) :
    l.set a x = l := by
  induction l generalizing a with
  | nil => rfl
  | cons y ys ih =>
    cases a with
    | zero =>
      simp only [List.getElem?_cons_zero, Option.some.injEq] at h
      simp [h]
    | succ b =>
      simp only [List.getElem?_cons_succ] at h
      simp [ih b h]

theorem GetConfig_of_done (f : Params) (s : Proc) (h : s.confOnce = true) :
    GetConfig f s = (s.config, s) := by
  simp [GetConfig, h]

theorem GetConfig_done (f : Params) (s : Proc) : (GetConfig f s).2.confOnce = true := by
  unfold GetConfig
  cases h : s.confOnce <;> simp [h]

theorem GetConfig_fst (f : Params) (s : Proc) : (GetConfig f s).1 = (GetConfig f s).2.config :=
  rfl

theorem GetConfigSeq_of_done (f : Params) (n : Nat) (s : Proc) (h : s.confOnce = true) :
    GetConfigSeq f n s = (List.replicate n s.config, s) := by
  induction n with
  | zero => rfl
  | succ m ih => simp [GetConfigSeq, GetConfig_of_done f s h, ih, List.replicate_succ]

/-! ## Environment overrides -/

/-- C1 (as stated) fails on two counts.  The base document `poolDocument` is
read from the explicit path.  The variable of `core.mode` is set, to the empty
string, and the field is the base value `"release"`, not the environment value.
The variable of `endpoints.http.address` is not set and the base document gives
`":4040"`, but the variable `GOTEMP_ENDPOINTS` of the parent path is set and the
field is `""`. -/
theorem LoadConf_override_counterexample :
    (worldOf [("conf.yml", Buffer.yaml poolDocument)] none
        [("GOTEMP_CORE_MODE", ""), ("GOTEMP_ENDPOINTS", "x")]).lookupEnv
        (envKey sample
          (worldOf [("conf.yml", Buffer.yaml poolDocument)] none
          [("GOTEMP_CORE_MODE", ""), ("GOTEMP_ENDPOINTS", "x")])
          "core.mode") = some "" ∧
      (LoadConf sample
        (worldOf [("conf.yml", Buffer.yaml poolDocument)] none
          [("GOTEMP_CORE_MODE", ""), ("GOTEMP_ENDPOINTS", "x")])
        Viper.New "conf.yml").conf.field "core.mode" = some (Value.str "release") ∧
      (LoadConf sample
        (worldOf [("conf.yml", Buffer.yaml poolDocument)] none
          [("GOTEMP_CORE_MODE", ""), ("GOTEMP_ENDPOINTS", "x")])
        Viper.New "conf.yml").conf.field "core.mode" ≠ some (Value.str "") ∧
      (worldOf [("conf.yml", Buffer.yaml poolDocument)] none
        [("GOTEMP_CORE_MODE", ""), ("GOTEMP_ENDPOINTS", "x")]).lookupEnv
        (envKey sample
          (worldOf [("conf.yml", Buffer.yaml poolDocument)] none
          [("GOTEMP_CORE_MODE", ""), ("GOTEMP_ENDPOINTS", "x")])
          "endpoints.http.address") = none ∧
      poolDocument.lookup "endpoints.http.address" = some (Value.str ":4040") ∧
      (LoadConf sample
        (worldOf [("conf.yml", Buffer.yaml poolDocument)] none
          [("GOTEMP_CORE_MODE", ""), ("GOTEMP_ENDPOINTS", "x")])
        Viper.New "conf.yml").conf.field "endpoints.http.address" = some (Value.str "") ∧
      (LoadConf sample
        (worldOf [("conf.yml", Buffer.yaml poolDocument)] none
          [("GOTEMP_CORE_MODE", ""), ("GOTEMP_ENDPOINTS", "x")])
        Viper.New "conf.yml").conf.field "endpoints.http.address" ≠
          some (Value.str ":4040") := by
  decide

/-- C1 (amended): for every key `k` of the schema and every base document `d`
(explicit, found, or the default) and environment, `LoadConf` succeeds, and
(a) if the variable `envKey f w k` is set to a non-empty value `s`, the field is
that value converted to the field's type (`s` itself for a string field; for an
integer field what `cast.ToInt` makes of `s`, which is `0` when its conversion
returns an error); (b) if that variable is unset or empty and
no variable named for a parent path of `k` is set to a non-empty value, the
field is what `d` gives for `k`, converted to the field's type by `cast.ToString`
or `cast.ToInt` (the zero value when `d` has no `k`; an integer above
`2^63 - 1` wraps into the 64-bit `int`). -/
theorem LoadConf_field_resolution (f : Params) (w : World) (v : Viper) (path : String)
    (d : Document) (k : String) (hd : BaseDocument f w v path d) (hk : k ∈ schemaKeys f) :
    (LoadConf f w v path).err = none ∧
      (∀ s, w.lookupEnv (envKey f w k) = some s → s ≠ "" →
        (LoadConf f w v path).conf.field k = some (typed w k (some (Value.str s)))) ∧
      (¬ envSet w (envKey f w k) → (∀ p ∈ keyParents k, ¬ envSet w (envKey f w p)) →
        (LoadConf f w v path).conf.field k = some (typed w k (d.lookup k))) := by
  obtain ⟨u, hu, hc, hl⟩ := LoadConf_of_base f w v hd
  rw [hl]
  refine ⟨rfl, ?_, ?_⟩
  · intro s hs hne
    show (LoadConf.assign f w u).field k = _
    rw [assign_field f w u hk, find_env hu hs hne]
  · intro hs hp
    show (LoadConf.assign f w u).field k = _
    rw [assign_field f w u hk, find_config hu hs hp, hc]

/-- Witness for C1 (amended): the base document gives
`core.work_pool_size = 1000`; with `GOTEMP_CORE_WORK_POOL_SIZE=50` the field is
`50`, with the variable unset it is `1000`; a document that gives `2^63` yields
`-2^63`. -/
theorem LoadConf_field_resolution_witness :
    BaseDocument sample
        (worldOf [("conf.yml", Buffer.yaml poolDocument)] none
          [("GOTEMP_CORE_WORK_POOL_SIZE", "50")])
        Viper.New "conf.yml" poolDocument ∧
      "core.work_pool_size" ∈ schemaKeys sample ∧
      envKey sample
          (worldOf [("conf.yml", Buffer.yaml poolDocument)] none
            [("GOTEMP_CORE_WORK_POOL_SIZE", "50")])
          "core.work_pool_size" = "GOTEMP_CORE_WORK_POOL_SIZE" ∧
      (LoadConf sample
          (worldOf [("conf.yml", Buffer.yaml poolDocument)] none
            [("GOTEMP_CORE_WORK_POOL_SIZE", "50")])
          Viper.New "conf.yml").conf.field "core.work_pool_size" = some (Value.int 50) ∧
      (LoadConf sample (worldOf [("conf.yml", Buffer.yaml poolDocument)] none [])
          Viper.New "conf.yml").conf.field "core.work_pool_size" = some (Value.int 1000) ∧
      (LoadConf sample (worldOf [("conf.yml", Buffer.yaml wideDocument)] none [])
          Viper.New "conf.yml").conf.field "core.work_pool_size" =
        some (Value.int (-9223372036854775808)) :=
  ⟨Or.inl ⟨by decide, rfl⟩, by decide, by decide,
    (LoadConf_field_resolution sample _ Viper.New "conf.yml" poolDocument "core.work_pool_size"
      (Or.inl ⟨by decide, rfl⟩) (by decide)).2.1 "50" rfl (by decide),
    (LoadConf_field_resolution sample (worldOf [("conf.yml", Buffer.yaml poolDocument)] none [])
      Viper.New "conf.yml" poolDocument "core.work_pool_size"
      (Or.inl ⟨by decide, rfl⟩) (by decide)).2.2
        (not_envSet_of_none rfl) (fun _ _ => not_envSet_of_none rfl),
    (LoadConf_field_resolution sample (worldOf [("conf.yml", Buffer.yaml wideDocument)] none [])
      Viper.New "conf.yml" wideDocument "core.work_pool_size"
      (Or.inl ⟨by decide, rfl⟩) (by decide)).2.2
        (not_envSet_of_none rfl) (fun _ _ => not_envSet_of_none rfl)⟩

/-- C5 (as stated) fails: with `GOTEMP_CORE_WORK_POOL_SIZE=abc`, which is not an
integer and which the conversion rejects, and the default document as base,
`LoadConf` returns no error and the field `Core.WorkPoolSize` is `0` (the
default document has `1000`). -/
theorem LoadConf_non_integer_counterexample :
    (worldOf [] none [("GOTEMP_CORE_WORK_POOL_SIZE", "abc")]).lookupEnv
        (envKey sample (worldOf [] none [("GOTEMP_CORE_WORK_POOL_SIZE", "abc")])
          "core.work_pool_size") = some "abc" ∧
      (worldOf [] none [("GOTEMP_CORE_WORK_POOL_SIZE", "abc")]).parseInt "abc" = none ∧
      (LoadConf sample (worldOf [] none [("GOTEMP_CORE_WORK_POOL_SIZE", "abc")])
        Viper.New "").err = none ∧
      (LoadConf sample (worldOf [] none [("GOTEMP_CORE_WORK_POOL_SIZE", "abc")])
        Viper.New "").conf.Core.WorkPoolSize = 0 ∧
      (defaultDocument sample).lookup "core.work_pool_size" = some (Value.int 1000) := by
  decide

/-- C5 (amended): for every integer field of the schema, if its override
variable is set to a non-empty value for which the string conversion of
`cast.ToInt` returns an error (`w.parseInt s = none`), `LoadConf` returns no
error whenever a base document is chosen, and the field is `0`, whatever the
base document gives for it.  Which values the conversion rejects is the
library's matter: `abc` is rejected, `0x1F` is read as `31`. -/
theorem LoadConf_non_integer_override (f : Params) (w : World) (v : Viper) (path : String)
    (d : Document) (k s : String) (hd : BaseDocument f w v path d) (hk : k ∈ schemaKeys f)
    (hi : k ∈ intKeys) (hs : w.lookupEnv (envKey f w k) = some s) (hne : s ≠ "")
    (hn : w.parseInt s = none) :
    (LoadConf f w v path).err = none ∧
      (LoadConf f w v path).conf.field k = some (Value.int 0) := by
  obtain ⟨u, hu, _, hl⟩ := LoadConf_of_base f w v hd
  rw [hl]
  refine ⟨rfl, ?_⟩
  show (LoadConf.assign f w u).field k = _
  rw [assign_field f w u hk, find_env hu hs hne]
  simp only [typed, hi, if_true, castToInt, hn, Option.getD_none]
  rfl

/-- Witness for C5 (amended): `GOTEMP_PROMETHEUS_PORT=abc` over
the default document. -/
theorem LoadConf_non_integer_override_witness :
    BaseDocument sample (worldOf [] none [("GOTEMP_PROMETHEUS_PORT", "abc")]) Viper.New ""
        (defaultDocument sample) ∧
      (LoadConf sample (worldOf [] none [("GOTEMP_PROMETHEUS_PORT", "abc")])
          Viper.New "").err = none ∧
      (LoadConf sample (worldOf [] none [("GOTEMP_PROMETHEUS_PORT", "abc")])
          Viper.New "").conf.field "prometheus.port" = some (Value.int 0) :=
  ⟨Or.inr (Or.inr ⟨⟨rfl, Or.inl rfl⟩, rfl⟩),
    LoadConf_non_integer_override sample (worldOf [] none [("GOTEMP_PROMETHEUS_PORT", "abc")])
      Viper.New "" (defaultDocument sample) "prometheus.port" "abc"
      (Or.inr (Or.inr ⟨⟨rfl, Or.inl rfl⟩, rfl⟩)) (by decide) (by decide) (by decide)
      (by decide) (by decide)⟩

/-! ## Choice of the source -/

/-- C2: for every non-empty explicit path whose file cannot be read, `LoadConf`
returns the read error together with the zero `ConfYaml`: every field of the
schema is its zero value.  The configuration layer of `viper` is left as it
was, and the result does not depend on what the search locations hold, so
neither a searched file nor the default document has been loaded. -/
theorem LoadConf_unreadable_explicit (f : Params) (w : World) (v : Viper) (path : String)
    (hp : path ≠ "") (hr : w.readFile path = none) :
    (LoadConf f w v path).err = some (Error.readFile path) ∧
      (LoadConf f w v path).conf = ConfYaml.zero f ∧
      (∀ k ∈ schemaKeys f, (LoadConf f w v path).conf.field k = some (zeroValue k)) ∧
      (LoadConf f w v path).viper.config = v.config ∧
      (∀ g, LoadConf f { w with findConfigFile := g } v path = LoadConf f w v path) := by
  refine ⟨?_, ?_, ?_, ?_, ?_⟩
  · rw [LoadConf_unreadable f w v hp hr]
  · rw [LoadConf_unreadable f w v hp hr]
  · rw [LoadConf_unreadable f w v hp hr]
    exact fun k hk => zero_field f hk
  · rw [LoadConf_unreadable f w v hp hr]
    rfl
  · intro g
    rw [LoadConf_unreadable f w v hp hr,
      LoadConf_unreadable f { w with findConfigFile := g } v hp hr]

/-- Witness for C2: the path `missing.yml` in a world
where a `config` file would be found by the search. -/
theorem LoadConf_unreadable_explicit_witness :
    "missing.yml" ≠ "" ∧
      (worldOf [("./config.yaml", Buffer.yaml poolDocument)] (some "./config.yaml")
        []).readFile "missing.yml" = none ∧
      (LoadConf sample
        (worldOf [("./config.yaml", Buffer.yaml poolDocument)] (some "./config.yaml") [])
        Viper.New "missing.yml").err = some (Error.readFile "missing.yml") ∧
      (LoadConf sample
        (worldOf [("./config.yaml", Buffer.yaml poolDocument)] (some "./config.yaml") [])
        Viper.New "missing.yml").conf = ConfYaml.zero sample :=
  ⟨by decide, by decide,
    (LoadConf_unreadable_explicit sample
      (worldOf [("./config.yaml", Buffer.yaml poolDocument)] (some "./config.yaml") [])
      Viper.New "missing.yml" (by decide) (by decide)).1,
    (LoadConf_unreadable_explicit sample
      (worldOf [("./config.yaml", Buffer.yaml poolDocument)] (some "./config.yaml") [])
      Viper.New "missing.yml" (by decide) (by decide)).2.1⟩

/-- C3 (as stated) fails: no explicit path, no config file at a search location,
no override variable of any schema key set, yet `Core.Mode` is `""` instead of
`"release"`, because the variable `GOTEMP_CORE` of the parent path `core` is set
and shadows the keys below it. -/
theorem LoadConf_defaults_counterexample :
    searchedFile sample (worldOf [] none [("GOTEMP_CORE", "1")]) Viper.New = none ∧
      (∀ k ∈ schemaKeys sample,
        (worldOf [] none [("GOTEMP_CORE", "1")]).lookupEnv
          (envKey sample (worldOf [] none [("GOTEMP_CORE", "1")]) k) = none) ∧
      (LoadConf sample (worldOf [] none [("GOTEMP_CORE", "1")]) Viper.New "").err = none ∧
      (LoadConf sample (worldOf [] none [("GOTEMP_CORE", "1")]) Viper.New "").conf.Core.Mode
        = "" ∧
      (LoadConf sample (worldOf [] none [("GOTEMP_CORE", "1")]) Viper.New "").conf.Core.Mode
        ≠ "release" := by
  decide

/-- C3 (amended): for every combination of the flags, when no explicit path is
given, no search location holds a config file, and no variable named for a
schema key or for a parent path of a schema key is set to a non-empty value,
`LoadConf` succeeds, every key it reads is present in the default document, and
every field of the result is the default document's value; in particular
`Core.Mode = "release"`, `Prometheus.Port = 8080` and
`Endpoints.Http.Address = ":4040"`. -/
theorem LoadConf_defaults (f : Params) (w : World) (v : Viper)
    (hs : searchedFile f w v = none)
    (he : ∀ k ∈ schemaKeys f, ¬ envSet w (envKey f w k))
    (hp : ∀ k ∈ schemaKeys f, ∀ p ∈ keyParents k, ¬ envSet w (envKey f w p)) :
    (LoadConf f w v "").err = none ∧
      (∀ k ∈ schemaKeys f, ∃ x, (defaultDocument f).lookup k = some x ∧
        (LoadConf f w v "").conf.field k = some x) ∧
      (LoadConf f w v "").conf.fields = defaultDocument f ∧
      (LoadConf f w v "").conf.Core.Mode = "release" ∧
      (LoadConf f w v "").conf.Prometheus.Port = 8080 ∧
      (LoadConf f w v "").conf.Endpoints.Http.Address = ":4040" := by
  have hd : BaseDocument f w v "" (defaultDocument f) := Or.inr (Or.inr ⟨⟨rfl, Or.inl hs⟩, rfl⟩)
  obtain ⟨u, hu, hc, hl⟩ := LoadConf_of_base f w v hd
  have hfind : ∀ k ∈ schemaKeys f, find w u k = (defaultDocument f).lookup k := by
    intro k hk
    rw [find_config hu (he k hk) (hp k hk), hc]
  have hfield : ∀ k ∈ schemaKeys f, ∃ x, (defaultDocument f).lookup k = some x ∧
      (LoadConf.assign f w u).field k = some x := by
    intro k hk
    obtain ⟨x, hx, hty⟩ := default_lookup f w hk
    exact ⟨x, hx, by rw [assign_field f w u hk, hfind k hk, hx, hty]⟩
  rw [hl]
  refine ⟨rfl, hfield, ?_, ?_, ?_, ?_⟩
  · show (LoadConf.assign f w u).fields = defaultDocument f
    obtain ⟨name, pg, kf, gr⟩ := f
    cases pg <;> cases kf <;> cases gr <;>
      simp only [LoadConf.assign, ConfYaml.fields, GetString, GetInt, if_true, if_false,
        Bool.false_eq_true] <;>
      (simp only [schemaKeys, if_true, if_false, Bool.false_eq_true, List.append_nil,
        List.nil_append, List.cons_append, List.forall_mem_cons, List.not_mem_nil,
        false_imp_iff, implies_true, and_true] at hfind
       simp only [hfind]
       rfl)
  · show castToString (find w u "core.mode") = "release"
    rw [hfind "core.mode" (by simp [schemaKeys])]
    rfl
  · show castToInt w (find w u "prometheus.port") = 8080
    rw [hfind "prometheus.port" (by simp [schemaKeys])]
    obtain ⟨name, pg, kf, gr⟩ := f
    cases pg <;> cases kf <;> cases gr <;> rfl
  · show castToString (find w u "endpoints.http.address") = ":4040"
    rw [hfind "endpoints.http.address" (by simp [schemaKeys])]
    obtain ⟨name, pg, kf, gr⟩ := f
    cases pg <;> cases kf <;> cases gr <;> rfl

/-- Witness for C3 (amended): the service `sample` in a world without
files and with an empty environment. -/
theorem LoadConf_defaults_witness :
    searchedFile sample (worldOf [] none []) Viper.New = none ∧
      (LoadConf sample (worldOf [] none []) Viper.New "").err = none ∧
      (LoadConf sample (worldOf [] none []) Viper.New "").conf.fields = defaultDocument sample ∧
      (LoadConf sample (worldOf [] none []) Viper.New "").conf.Core.Mode = "release" ∧
      (LoadConf sample (worldOf [] none []) Viper.New "").conf.Prometheus.Port = 8080 ∧
      (LoadConf sample (worldOf [] none []) Viper.New "").conf.Endpoints.Http.Address
        = ":4040" :=
  ⟨rfl,
    (LoadConf_defaults sample (worldOf [] none []) Viper.New rfl
      (fun _ _ => not_envSet_of_none rfl) (fun _ _ _ _ => not_envSet_of_none rfl)).1,
    (LoadConf_defaults sample (worldOf [] none []) Viper.New rfl
      (fun _ _ => not_envSet_of_none rfl) (fun _ _ _ _ => not_envSet_of_none rfl)).2.2⟩

/-- C4, the code at the failing input: no explicit path is given, the search
finds `./config.yaml`, the file does not parse, and `LoadConf` returns no error.
The parse error of `viper.ReadInConfig` is swallowed and the default document
is loaded (`Core.Mode = "release"`), where the paths for an explicit file and
for the default document return the parse error: the same file given as the
explicit path makes `LoadConf` fail. -/
theorem LoadConf_unparseable_found_swallowed :
    searchedFile sample (worldOf [("./config.yaml", Buffer.malformed)] (some "./config.yaml") [])
        Viper.New = some "./config.yaml" ∧
      (worldOf [("./config.yaml", Buffer.malformed)] (some "./config.yaml") []).readFile
        "./config.yaml" = some Buffer.malformed ∧
      (LoadConf sample (worldOf [("./config.yaml", Buffer.malformed)] (some "./config.yaml") [])
        Viper.New "").err = none ∧
      (LoadConf sample (worldOf [("./config.yaml", Buffer.malformed)] (some "./config.yaml") [])
        Viper.New "").viper.config = defaultDocument sample ∧
      (LoadConf sample (worldOf [("./config.yaml", Buffer.malformed)] (some "./config.yaml") [])
        Viper.New "").conf.Core.Mode = "release" ∧
      (LoadConf sample (worldOf [("./config.yaml", Buffer.malformed)] (some "./config.yaml") [])
        Viper.New "./config.yaml").err = some Error.parse := by
  decide

/-- The search branch on an unparseable file, in general: when no explicit path
is given and a config document is found at a search location but cannot be
parsed, `LoadConf` loads the built-in default document and returns, without
error, the same `ConfYaml` as in a world where the search finds no file. -/
theorem LoadConf_unparseable_found (f : Params) (w : World) (v : Viper) (file : String)
    (hs : searchedFile f w v = some file) (hr : w.readFile file = some Buffer.malformed) :
    (LoadConf f w v "").err = none ∧
      (LoadConf f w v "").viper.config = defaultDocument f ∧
      (LoadConf f w v "").conf =
        (LoadConf f { w with findConfigFile := fun _ _ => none } v "").conf := by
  have h1 : SearchFails f w v "" := ⟨rfl, Or.inr ⟨file, hs, Or.inr hr⟩⟩
  have h2 : SearchFails f { w with findConfigFile := fun _ _ => none } v "" :=
    ⟨rfl, Or.inl rfl⟩
  rw [LoadConf_default f w v h1, LoadConf_default f _ v h2]
  exact ⟨rfl, rfl, rfl⟩

/-- The search branch at a found and malformed `./config.yaml`. -/
theorem LoadConf_unparseable_found_instance :
    searchedFile sample (worldOf [("./config.yaml", Buffer.malformed)] (some "./config.yaml") [])
        Viper.New = some "./config.yaml" ∧
      (LoadConf sample (worldOf [("./config.yaml", Buffer.malformed)] (some "./config.yaml") [])
        Viper.New "").err = none ∧
      (LoadConf sample (worldOf [("./config.yaml", Buffer.malformed)] (some "./config.yaml") [])
        Viper.New "").viper.config = defaultDocument sample :=
  ⟨rfl,
    (LoadConf_unparseable_found sample
      (worldOf [("./config.yaml", Buffer.malformed)] (some "./config.yaml") []) Viper.New
      "./config.yaml" rfl rfl).1,
    (LoadConf_unparseable_found sample
      (worldOf [("./config.yaml", Buffer.malformed)] (some "./config.yaml") []) Viper.New
      "./config.yaml" rfl rfl).2.1⟩

/-- C7: strict precedence without merging.  When an explicit document is read
and parsed, or a search-location document is found and parsed, `LoadConf`
succeeds with exactly that document as `viper`'s configuration layer, and a
schema key absent from it whose override variable is not set has the zero value
as its field: nothing is filled in from the default document. -/
theorem LoadConf_strict_precedence (f : Params) (w : World) (v : Viper) (path : String)
    (d : Document) (k : String)
    (hd : ExplicitDocument w path d ∨ FoundDocument f w v path d)
    (hk : k ∈ schemaKeys f) (ha : d.lookup k = none)
    (he : w.lookupEnv (envKey f w k) = none) :
    (LoadConf f w v path).err = none ∧
      (LoadConf f w v path).viper.config = d ∧
      (LoadConf f w v path).conf.field k = some (zeroValue k) := by
  have hb : BaseDocument f w v path d := by
    rcases hd with h | h
    · exact Or.inl h
    · exact Or.inr (Or.inl h)
  obtain ⟨u, hu, hc, hl⟩ := LoadConf_of_base f w v hb
  rw [hl]
  refine ⟨rfl, hc, ?_⟩
  show (LoadConf.assign f w u).field k = _
  rw [assign_field f w u hk, find_absent hu (not_envSet_of_none he) (hc ▸ ha), typed_none]

/-- Witness for C7: the document found by the search has
no `prometheus.port`; the field `Prometheus.Port` is `0` although the default
document has `8080`. -/
theorem LoadConf_strict_precedence_witness :
    FoundDocument sample
        (worldOf [("./config.yaml", Buffer.yaml poolDocument)] (some "./config.yaml") [])
        Viper.New "" poolDocument ∧
      "prometheus.port" ∈ schemaKeys sample ∧
      poolDocument.lookup "prometheus.port" = none ∧
      (defaultDocument sample).lookup "prometheus.port" = some (Value.int 8080) ∧
      (LoadConf sample
        (worldOf [("./config.yaml", Buffer.yaml poolDocument)] (some "./config.yaml") [])
        Viper.New "").conf.field "prometheus.port" = some (Value.int 0) :=
  ⟨⟨rfl, "./config.yaml", rfl, rfl⟩, by decide, by decide, by decide,
    (LoadConf_strict_precedence sample
      (worldOf [("./config.yaml", Buffer.yaml poolDocument)] (some "./config.yaml") [])
      Viper.New "" poolDocument "prometheus.port"
      (Or.inr ⟨rfl, "./config.yaml", rfl, rfl⟩) (by decide) (by decide) rfl).2.2⟩

/-! ## The composed schema -/

/-- C9: for every combination of the flags, the leaves of the `ConfYaml` that
`LoadConf` returns are exactly the keys `LoadConf` reads; they are the seven keys
of the unconditional sections (`core`, `prometheus`, `log`, `endpoints.http`)
plus, for each enabled flag, the keys of its section (six for `postgres`, four
for `kafka`, one for `endpoints.grpc`), without repetition and with no other.
The default document has the same keys. -/
theorem schema_composition (f : Params) (w : World) (v : Viper) (path : String) :
    (LoadConf f w v path).conf.leafKeys = schemaKeys f ∧
      (∀ k, k ∈ (LoadConf f w v path).conf.leafKeys ↔
        k ∈ unconditionalKeys ∨ (f.Postgres = true ∧ k ∈ postgresKeys) ∨
          (f.Kafka = true ∧ k ∈ kafkaKeys) ∨ (f.Grpc = true ∧ k ∈ grpcKeys)) ∧
      (LoadConf f w v path).conf.leafKeys.Nodup ∧
      (LoadConf f w v path).conf.leafKeys.length =
        7 + (if f.Postgres then 6 else 0) + (if f.Kafka then 4 else 0)
          + (if f.Grpc then 1 else 0) ∧
      unconditionalKeys.length = 7 ∧ postgresKeys.length = 6 ∧ kafkaKeys.length = 4 ∧
      grpcKeys.length = 1 ∧
      (defaultDocument f).map Prod.fst = (LoadConf f w v path).conf.leafKeys := by
  rw [LoadConf_leafKeys]
  refine ⟨rfl, mem_schemaKeys f, schemaKeys_nodup f, ?_, rfl, rfl, rfl, rfl, ?_⟩
  · obtain ⟨name, pg, kf, gr⟩ := f
    cases pg <;> cases kf <;> cases gr <;> rfl
  · obtain ⟨name, pg, kf, gr⟩ := f
    cases pg <;> cases kf <;> cases gr <;> rfl

/-! ## The process-wide `Config` -/

/-- C6 (as stated) fails: in a fresh process, with only the default document
applying, the `Config` returned by the first `GetConfig` call holds the zero
`ConfYaml` (`Core.Mode = ""`), while `LoadConf` produces `Core.Mode = "release"`. -/
theorem GetConfig_unresolved_counterexample :
    (GetConfig sample Proc.start).2.deref (GetConfig sample Proc.start).1 =
        some { ConfYaml := ConfYaml.zero sample } ∧
      ((GetConfig sample Proc.start).2.deref (GetConfig sample Proc.start).1).map
        (fun c => c.ConfYaml.Core.Mode) = some "" ∧
      (LoadConf sample (worldOf [] none []) Proc.start.viper "").err = none ∧
      (LoadConf sample (worldOf [] none []) Proc.start.viper "").conf.Core.Mode = "release" ∧
      (GetConfig sample Proc.start).2.deref (GetConfig sample Proc.start).1 ≠
        some { ConfYaml := (LoadConf sample (worldOf [] none []) Proc.start.viper "").conf } := by
  decide

/-- C6 (amended): `GetConfig` does not resolve.  In a process where `confOnce`
has not run, the first `GetConfig` call allocates a `Config` whose `ConfYaml` is
the zero value and returns its address, without touching `viper`; the `Config`
holds what `LoadConf` produces only after `Initialize` has been called on it
and `LoadConf` returned no error. -/
theorem GetConfig_first_call (f : Params) (s : Proc) (h : s.confOnce = false) :
    (GetConfig f s).1 = some s.heap.length ∧
      (GetConfig f s).2.deref (GetConfig f s).1 = some (NewConfig f) ∧
      (GetConfig f s).2.viper = s.viper ∧
      ∀ (w : World) (path : String), (LoadConf f w s.viper path).err = none →
        ∃ t, Initialize f w (GetConfig f s).2 s.heap.length path = Outcome.returned t ∧
          t.deref (GetConfig f s).1 = some { ConfYaml := (LoadConf f w s.viper path).conf } := by
  have hg : GetConfig f s =
      (some s.heap.length,
        { s with confOnce := true, config := some s.heap.length,
                 heap := s.heap ++ [NewConfig f] }) := by
    simp [GetConfig, h]
  rw [hg]
  refine ⟨rfl, ?_, rfl, ?_⟩
  · simp [Proc.deref]
  · intro w path he
    simp only [Initialize, List.length_append, List.length_singleton, Nat.lt_succ_self, if_true,
      he]
    refine ⟨_, rfl, ?_⟩
    simp [Proc.deref]

/-- Witness for C6 (amended): a fresh process. -/
theorem GetConfig_first_call_witness :
    Proc.start.confOnce = false ∧
      (GetConfig sample Proc.start).1 = some 0 ∧
      (GetConfig sample Proc.start).2.deref (GetConfig sample Proc.start).1 =
        some (NewConfig sample) :=
  ⟨rfl, (GetConfig_first_call sample Proc.start rfl).1,
    (GetConfig_first_call sample Proc.start rfl).2.1⟩

/-- C10: idempotence of `GetConfig`.  In every sequence of `GetConfig` calls, from
any state, each call returns the pointer the first call returned, and the
process state after the sequence is the state the first call left, so the
`Config` behind the pointer has the same values.  A call after the first
changes nothing at all; no call touches `viper`, and `GetConfig` takes neither
the file system nor the environment as input. -/
theorem GetConfig_idempotent (f : Params) (s : Proc) (n : Nat) :
    (GetConfigSeq f (n + 1) s).1 = List.replicate (n + 1) (GetConfig f s).1 ∧
      (GetConfigSeq f (n + 1) s).2 = (GetConfig f s).2 ∧
      (GetConfigSeq f (n + 1) s).2.deref (GetConfig f s).1 =
        (GetConfig f s).2.deref (GetConfig f s).1 ∧
      GetConfig f (GetConfig f s).2 = ((GetConfig f s).1, (GetConfig f s).2) ∧
      (GetConfig f s).2.viper = s.viper := by
  have hseq : GetConfigSeq f (n + 1) s =
      (List.replicate (n + 1) (GetConfig f s).1, (GetConfig f s).2) := by
    simp only [GetConfigSeq, GetConfigSeq_of_done f n (GetConfig f s).2 (GetConfig_done f s),
      List.replicate_succ, GetConfig_fst]
  refine ⟨?_, ?_, ?_, ?_, ?_⟩
  · rw [hseq]
  · rw [hseq]
  · rw [hseq]
  · rw [GetConfig_of_done f _ (GetConfig_done f s), GetConfig_fst]
  · unfold GetConfig
    cases h : s.confOnce <;> simp [h]

/-- C8 (as stated) fails: the process `resolvedProc` holds a resolved `Config`
(`Core.Mode = "release"`); `Initialize("bad.yml")` with a malformed `bad.yml`
ends in `log.Fatalf`, and by then the `ConfYaml` of the `Config` has been
replaced by the zero value. -/
theorem Initialize_malformed_counterexample :
    (worldOf [("bad.yml", Buffer.malformed)] none []).readFile "bad.yml"
        = some Buffer.malformed ∧
      resolvedProc.deref (some 0) = some { ConfYaml := defaultedConf } ∧
      defaultedConf.Core.Mode = "release" ∧
      (Initialize sample (worldOf [("bad.yml", Buffer.malformed)] none []) resolvedProc 0
        "bad.yml").state.deref (some 0) = some { ConfYaml := ConfYaml.zero sample } ∧
      (Initialize sample (worldOf [("bad.yml", Buffer.malformed)] none []) resolvedProc 0
        "bad.yml").state.deref (some 0) ≠ resolvedProc.deref (some 0) := by
  decide

/-- C8 (amended): if the document at the explicit path is malformed, `LoadConf`
returns a parse error together with the zero `ConfYaml`; `Initialize` stores
that zero value in the `Config` and ends in `log.Fatalf`.  No value of the
malformed document, of the default document or of the environment is
published, and a `Config` that still held the zero value is left as it was. -/
theorem Initialize_malformed (f : Params) (w : World) (s : Proc) (a : Nat) (path : String)
    (hp : path ≠ "") (hr : w.readFile path = some Buffer.malformed)
    (ha : a < s.heap.length) :
    (LoadConf f w s.viper path).err = some Error.parse ∧
      (LoadConf f w s.viper path).conf = ConfYaml.zero f ∧
      ∃ t, Initialize f w s a path = Outcome.fatal Error.parse t ∧
        t.heap[a]? = some (NewConfig f) ∧
        (s.heap[a]? = some (NewConfig f) → t.heap = s.heap) := by
  have hl := LoadConf_malformed f w s.viper hp hr
  refine ⟨by rw [hl], by rw [hl], ?_⟩
  simp only [Initialize, ha, if_true, hl]
  refine ⟨_, rfl, ?_, ?_⟩
  · simp [ha, NewConfig]
  · intro h0
    exact set_of_getElem? s.heap a _ h0

/-- Witness for C8 (amended): the resolved process and a malformed
`bad.yml`. -/
theorem Initialize_malformed_witness :
    "bad.yml" ≠ "" ∧
      (worldOf [("bad.yml", Buffer.malformed)] none []).readFile "bad.yml"
        = some Buffer.malformed ∧
      0 < resolvedProc.heap.length ∧
      (LoadConf sample (worldOf [("bad.yml", Buffer.malformed)] none []) resolvedProc.viper
        "bad.yml").err = some Error.parse ∧
      (LoadConf sample (worldOf [("bad.yml", Buffer.malformed)] none []) resolvedProc.viper
        "bad.yml").conf = ConfYaml.zero sample :=
  ⟨by decide, by decide, by decide,
    (Initialize_malformed sample (worldOf [("bad.yml", Buffer.malformed)] none []) resolvedProc 0
      "bad.yml" (by decide) (by decide) (by decide)).1,
    (Initialize_malformed sample (worldOf [("bad.yml", Buffer.malformed)] none []) resolvedProc 0
      "bad.yml" (by decide) (by decide) (by decide)).2.1⟩

end Gotemp
